import Mathlib

/-!
A shallow embedding of the fraud-dashboard frontend (src/fraudApi.js and
src/App.jsx) in Lean 4.

Modelling conventions:
- JSON numbers that the code never does arithmetic on are modelled as `Int`.
- A JSON field that may be absent (`undefined`/`null`) is an `Option`.
- JavaScript string falsiness (`""` is falsy) and array truthiness (`[]` is
  truthy) are modelled explicitly where the code relies on `||`.
- `fetch` responses are modelled as a record of HTTP status, raw body text and
  already-parsed JSON payload; `res.ok` is `200 ≤ status ≤ 299`.
- `URLSearchParams` is modelled as an ordered list of key/value pairs, with a
  serializer joining `k=v` with `&` (the values used by the app need no
  percent-encoding).
- `String.toLowerCase` is modelled as ASCII case folding on the character
  list, and `String.includes` as substring occurrence on character lists.
- React `useState` state is gathered in one record `AppState`; an event
  handler becomes a function from the old state (plus the outcomes of the
  `await`ed fetches) to the new state.
-/

/-- Does the first character list occur as a contiguous block at the head of
the second?  Used to model JavaScript `String.includes`. -/
def startsWithB : List Char → List Char → Bool
  | [], _ => true
  | _ :: _, [] => false
  | a :: as, b :: bs => a == b && startsWithB as bs

/-- Does the first character list occur contiguously anywhere inside the
second? -/
def subOccurs (pat : List Char) : List Char → Bool
  | [] => pat.isEmpty
  | c :: rest => startsWithB pat (c :: rest) || subOccurs pat rest

/-- JavaScript `s.includes(sub)`. -/
def strContains (s sub : String) : Bool :=
  subOccurs sub.data s.data

/-- JavaScript `s.toLowerCase().includes(pat)` (ASCII case folding). -/
def strIncludesLower (s pat : String) : Bool :=
  subOccurs pat.data (s.data.map Char.toLower)

/-- JavaScript `a || b` on strings: the empty string is falsy. -/
def jsOrString (a b : String) : String :=
  if a = "" then b else a

/-- JavaScript `a || b` where `a` is a possibly-absent string field: both an
absent field and an empty string are falsy. -/
def jsOrOptStr (a b : Option String) : Option String :=
  match a with
  | some s => if s = "" then b else some s
  | none => b

/-- JavaScript `a || b || []` for possibly-absent array fields: an array is
always truthy (even when empty), absence is falsy. -/
def jsOrList {α : Type} (a b : Option (List α)) : List α :=
  match a with
  | some l => l
  | none =>
    match b with
    | some l => l
    | none => []

/-- Truthiness of the `year` state (`!year` in the `handleRun` guard):
`null` and `0` are falsy. -/
def jsTruthyYear : Option Int → Bool
  | none => false
  | some y => !(y == 0)

-- ---------------------------------------------------------------------------
-- Data model (backend payloads and the normalized client-side records)
-- ---------------------------------------------------------------------------

/-- One entry of `{hospitals: [...]}` from `/api/hospitals`. -/
structure Hospital where
  id : String
  name : String
  label : String
deriving DecidableEq

/-- Payload of `/api/hospitals`. -/
structure HospitalsPayload where
  hospitals : Option (List Hospital)
deriving DecidableEq

/-- Payload of `/api/years`. -/
structure YearsPayload where
  years : Option (List Int)
deriving DecidableEq

/-- One point of the trend series, `{month, value}`. -/
structure TrendPoint where
  month : String
  value : Int
deriving DecidableEq

/-- One entry of `top_suspicious_drugs`. -/
structure DrugEntry where
  drug_name : String
  avg_fraud_score : Int
deriving DecidableEq

/-- One `{name, value}` pair of an array-shaped `risk_distribution`;
`name` may be absent (the code substitutes `""`). -/
structure RDEntry where
  name : Option String
  value : Int
deriving DecidableEq

/-- The object shape of `risk_distribution`: the three tier keys, each
possibly absent. -/
structure RiskDistObj where
  High : Option Int
  Medium : Option Int
  Low : Option Int
deriving DecidableEq

/-- `risk_distribution` as received: either the object shape or an array of
(possibly null) `{name, value}` entries. -/
inductive RiskDistInput where
  | obj (o : RiskDistObj)
  | arr (l : List (Option RDEntry))
deriving DecidableEq

/-- The raw JSON payload of `/api/fraud-report`, fields as the backend emits
them (every field possibly absent). -/
structure FraudResponse where
  hospital_id : Option String
  hospital_name : Option String
  year : Option Int
  quarter : Option Int
  total_prescriptions : Option Int
  high_risk_cases : Option Int
  medium_risk_cases : Option Int
  low_risk_cases : Option Int
  controlled_drug_use : Option Int
  active_alerts : Option Int
  risk_level : Option String
  hospital_risk_level : Option String
  summary : Option String
  fraud_trend_last_3_months : Option (List TrendPoint)
  trend_last_3_months : Option (List TrendPoint)
  top_suspicious_drugs : Option (List DrugEntry)
  risk_distribution : Option RiskDistInput
deriving DecidableEq

/-- The normalized record `runFraudCheck` returns. -/
structure FraudReport where
  hospitalId : Option String
  hospitalName : Option String
  year : Option Int
  quarter : Option Int
  totalPrescriptions : Option Int
  highRiskCases : Option Int
  mediumRiskCases : Option Int
  lowRiskCases : Option Int
  controlledDrugUse : Option Int
  activeAlerts : Option Int
  hospitalRiskLevel : Option String
  summary : String
  trend : List TrendPoint
  topSuspiciousDrugs : List DrugEntry
  riskDistribution : RiskDistObj
deriving DecidableEq

/-- One suspicious prescription record from `/api/top-cases`. -/
structure TopCase where
  prescription_id : String
  risk_band : String
  drug_name : String
  quantity : Int
  patient_id : String
  doctor_id : String
  date : String
  final_fraud_score : Int
  recommended_action : String
deriving DecidableEq

/-- Payload of `/api/top-cases`. -/
structure TopCasesPayload where
  cases : Option (List TopCase)
deriving DecidableEq

-- ---------------------------------------------------------------------------
-- API client (src/fraudApi.js)
-- ---------------------------------------------------------------------------

/-- A `fetch` response: HTTP status, raw body text, and the JSON value the
body parses to. -/
structure HttpResponse (α : Type) where
  status : Nat
  bodyText : String
  json : α

/-- `res.ok`: status in the inclusive range 200–299. -/
def resOk (status : Nat) : Bool :=
  200 ≤ status && status ≤ 299

/-- The error message `getJson` throws on a non-ok response. -/
def apiErrorMsg (status : Nat) (text : String) : String :=
  "API error " ++ toString status ++ ": " ++ text

/-- `getJson`: return the parsed JSON on an ok status, otherwise fail with
`apiErrorMsg`. -/
def getJson {α : Type} (r : HttpResponse α) : Except String α :=
  if resOk r.status then Except.ok r.json else Except.error (apiErrorMsg r.status r.bodyText)

/-- `getHospitals`: unwrap `data.hospitals || []`. -/
def getHospitals (r : HttpResponse HospitalsPayload) : Except String (List Hospital) :=
  (getJson r).map (fun d => d.hospitals.getD [])

/-- `getYears`: unwrap `data.years || []`. -/
def getYears (r : HttpResponse YearsPayload) : Except String (List Int) :=
  (getJson r).map (fun d => d.years.getD [])

/-- The `URLSearchParams` built by `runFraudCheck`: `hospital_id`, `year`
stringified, and `quarter` appended only when provided. -/
def fraudCheckParams (hospitalId : String) (year : Int) (quarter : Option Int) :
    List (String × String) :=
  let base := [("hospital_id", hospitalId), ("year", toString year)]
  match quarter with
  | none => base
  | some q => base ++ [("quarter", toString q)]

/-- `params.toString()`: join `k=v` pairs with `&`. -/
def serializeParams (ps : List (String × String)) : String :=
  String.intercalate "&" (ps.map (fun p => p.1 ++ "=" ++ p.2))

/-- The query string of the `/api/fraud-report` request. -/
def fraudReportQueryString (hospitalId : String) (year : Int) (quarter : Option Int) : String :=
  serializeParams (fraudCheckParams hospitalId year quarter)

/-- The `URLSearchParams` built by `getTopCases` (with its `limit`). -/
def topCasesParams (hospitalId : String) (year : Int) (quarter : Option Int)
    (limit : Int) : List (String × String) :=
  let base := [("hospital_id", hospitalId), ("year", toString year), ("limit", toString limit)]
  match quarter with
  | none => base
  | some q => base ++ [("quarter", toString q)]

/-- The loop body of the array-shape `risk_distribution` normalization:
skip null entries, lower-case the name, and classify by substring
containment, `high` checked before `medium` before `low`. -/
def rdStep (acc : RiskDistObj) : Option RDEntry → RiskDistObj
  | none => acc
  | some e =>
    let name := e.name.getD ""
    if strIncludesLower name "high" then { acc with High := some e.value }
    else if strIncludesLower name "medium" then { acc with Medium := some e.value }
    else if strIncludesLower name "low" then { acc with Low := some e.value }
    else acc

/-- Normalization of an array-shaped `risk_distribution` into the object
shape, starting from the empty object `{}`. -/
def normalizeRDArray (l : List (Option RDEntry)) : RiskDistObj :=
  List.foldl rdStep ⟨none, none, none⟩ l

/-- `data.risk_distribution || {}` followed by the `Array.isArray` branch. -/
def riskDistFromInput : Option RiskDistInput → RiskDistObj
  | none => ⟨none, none, none⟩
  | some (RiskDistInput.obj o) => o
  | some (RiskDistInput.arr l) => normalizeRDArray l

/-- The field remapping `runFraudCheck` performs on a parsed
`/api/fraud-report` payload. -/
def normalizeReport (data : FraudResponse) : FraudReport :=
  { hospitalId := data.hospital_id
    hospitalName := data.hospital_name
    year := data.year
    quarter := data.quarter
    totalPrescriptions := data.total_prescriptions
    highRiskCases := data.high_risk_cases
    mediumRiskCases := data.medium_risk_cases
    lowRiskCases := data.low_risk_cases
    controlledDrugUse := data.controlled_drug_use
    activeAlerts := data.active_alerts
    hospitalRiskLevel := jsOrOptStr data.risk_level data.hospital_risk_level
    summary := data.summary.getD ""
    trend := jsOrList data.fraud_trend_last_3_months data.trend_last_3_months
    topSuspiciousDrugs := data.top_suspicious_drugs.getD []
    riskDistribution := riskDistFromInput data.risk_distribution }

/-- `runFraudCheck`: status check, then field normalization. -/
def runFraudCheck (r : HttpResponse FraudResponse) : Except String FraudReport :=
  (getJson r).map normalizeReport

/-- `getTopCases`: unwrap `data.cases || []`. -/
def getTopCases (r : HttpResponse TopCasesPayload) : Except String (List TopCase) :=
  (getJson r).map (fun d => d.cases.getD [])

-- ---------------------------------------------------------------------------
-- Page state container (src/App.jsx)
-- ---------------------------------------------------------------------------

/-- The `useState` cells of `App`, gathered into one record. -/
structure AppState where
  hospitals : List Hospital
  hospitalsLoading : Bool
  hospitalsError : String
  years : List Int
  selectedHospital : String
  year : Option Int
  quarter : String
  report : Option FraudReport
  topCases : List TopCase
  loading : Bool
  error : String
  step : Nat
  activeTab : String
deriving DecidableEq

/-- The startup effect `loadData`, given the outcomes of the `getHospitals`
and `getYears` calls. On a hospitals failure the page-level error is set; a
years failure is absorbed by the static fallback list. -/
def loadData (hres : Except String (List Hospital)) (yres : Except String (List Int))
    (s : AppState) : AppState :=
  let s0 := { s with hospitalsLoading := true, hospitalsError := "" }
  match hres with
  | Except.error _ =>
    { s0 with
      hospitalsError := "Failed to load hospitals or years from backend."
      hospitalsLoading := false }
  | Except.ok hs =>
    let s1 := { s0 with
      hospitals := hs
      selectedHospital :=
        match hs with
        | [] => s0.selectedHospital
        | h :: _ => h.id }
    let s2 :=
      match yres with
      | Except.ok ys =>
        { s1 with
          years := ys
          year := if ys.length > 0 then ys.getLast? else s1.year }
      | Except.error _ =>
        let fb : List Int := [2021, 2022, 2023]
        { s1 with years := fb, year := fb.getLast? }
    { s2 with hospitalsLoading := false }

/-- The `handleRun` click handler, given the outcomes of the two concurrent
fetches. On the guard failure only the validation error is set; on a fetch
failure the report and cases are cleared and the failure message surfaced;
on success the state machine moves to the dashboard screen (`step = 2`). -/
def handleRun (s : AppState) (reportRes : Except String FraudReport)
    (casesRes : Except String (List TopCase)) : AppState :=
  if s.selectedHospital == "" || !(jsTruthyYear s.year) then
    { s with error := "Please select a hospital and year." }
  else
    match reportRes, casesRes with
    | Except.ok r, Except.ok cs =>
      { s with
        loading := false
        error := ""
        report := some r
        topCases := cs
        activeTab := "overview"
        step := 2 }
    | Except.error m, _ =>
      { s with
        loading := false
        error := jsOrString m "Failed to run fraud detector."
        report := none
        topCases := [] }
    | _, Except.error m =>
      { s with
        loading := false
        error := jsOrString m "Failed to run fraud detector."
        report := none
        topCases := [] }

-- ---------------------------------------------------------------------------
-- Dashboard derivations (src/App.jsx render helpers)
-- ---------------------------------------------------------------------------

/-- What a chart card renders: either its empty-state message or the chart
over its data. -/
inductive ChartView (α : Type) where
  | emptyMessage (msg : String)
  | chart (data : List α)
deriving DecidableEq

/-- `lineData`: `report?.trend || []`. -/
def lineData : Option FraudReport → List TrendPoint
  | none => []
  | some r => r.trend

/-- The trend chart card: the empty-state message when `lineData` is empty,
otherwise the line chart. -/
def trendChartView (report : Option FraudReport) : ChartView TrendPoint :=
  if (lineData report).length = 0 then
    ChartView.emptyMessage "No month data available."
  else
    ChartView.chart (lineData report)

/-- `riskLevelLabel`: `report?.hospitalRiskLevel || ""`. -/
def riskLevelLabel : Option FraudReport → String
  | none => ""
  | some r => r.hospitalRiskLevel.getD ""

/-- `riskLevelColor`: red for exactly `HIGH`, orange for exactly `MEDIUM`,
green otherwise. -/
def riskLevelColor (label : String) : String :=
  if label == "HIGH" then "#FF4D4F"
  else if label == "MEDIUM" then "#FFA940"
  else "#52C41A"

-- ---------------------------------------------------------------------------
-- Helper lemmas
-- ---------------------------------------------------------------------------

theorem startsWithB_self_append (l rest : List Char) : startsWithB l (l ++ rest) = true := by
  induction l with
  | nil => rfl
  | cons a as ih => simp [startsWithB, ih]

theorem subOccurs_nil_pat (l : List Char) : subOccurs [] l = true := by
  cases l <;> simp [subOccurs, startsWithB, List.isEmpty]

theorem subOccurs_append (pre pat post : List Char) :
    subOccurs pat (pre ++ (pat ++ post)) = true := by
  induction pre with
  | nil =>
    simp only [List.nil_append]
    cases pat with
    | nil => exact subOccurs_nil_pat post
    | cons a as =>
      simp [subOccurs, startsWithB, startsWithB_self_append]
  | cons c pre ih =>
    simp [subOccurs, ih]

theorem apiErrorMsg_ne_empty (st : Nat) (tx : String) : apiErrorMsg st tx ≠ "" := by
  intro h
  have hl := congrArg String.length h
  have h10 : ("API error ").length = 10 := by decide
  have h2 : (": ").length = 2 := by decide
  have h0 : ("").length = 0 := by decide
  simp [apiErrorMsg, String.length_append, h10, h2, h0] at hl

theorem strContains_status (st : Nat) (tx : String) :
    strContains (apiErrorMsg st tx) (toString st) = true := by
  have hd : (apiErrorMsg st tx).data =
      "API error ".data ++ ((toString st).data ++ (": ".data ++ tx.data)) := by
    simp [apiErrorMsg, String.data_append]
  simp only [strContains, hd]
  have := subOccurs_append "API error ".data (toString st).data (": ".data ++ tx.data)
  simpa using this

theorem strContains_body (st : Nat) (tx : String) :
    strContains (apiErrorMsg st tx) tx = true := by
  have hd : (apiErrorMsg st tx).data =
      ("API error ".data ++ (toString st).data ++ ": ".data) ++ (tx.data ++ []) := by
    simp [apiErrorMsg, String.data_append]
  simp only [strContains, hd]
  exact subOccurs_append _ _ _

/-- On a non-ok status, `getJson` fails with the formatted message. -/
theorem getJson_non2xx {α : Type} (r : HttpResponse α) (hbad : resOk r.status = false) :
    getJson r = Except.error (apiErrorMsg r.status r.bodyText) := by
  simp [getJson, hbad]

-- ---------------------------------------------------------------------------
-- Concrete fixtures
-- ---------------------------------------------------------------------------

/-- A `/api/fraud-report` payload with every field absent. -/
def emptyResponse : FraudResponse :=
  ⟨none, none, none, none, none, none, none, none, none,
   none, none, none, none, none, none, none, none⟩

/-- A previously fetched report (the normalization of the empty payload). -/
def sampleReport : FraudReport := normalizeReport emptyResponse

/-- A state that already holds a fetched report, with a hospital and year
selected, on the filters screen. -/
def priorState : AppState :=
  { hospitals := []
    hospitalsLoading := false
    hospitalsError := ""
    years := [2023]
    selectedHospital := "H1"
    year := some 2023
    quarter := ""
    report := some sampleReport
    topCases := []
    loading := false
    error := ""
    step := 1
    activeTab := "overview" }

/-- A failing `/api/fraud-report` response: status 500, body `server error`. -/
def badReportResponse : HttpResponse FraudResponse :=
  ⟨500, "server error", emptyResponse⟩

/-- Claim C1, counterexample: with a previously fetched report in state, a
failing report fetch does NOT leave the prior report untouched — the handler
clears it to null. -/
theorem C1_report_untouched_counterexample :
    priorState.report = some sampleReport ∧
    (handleRun priorState (runFraudCheck badReportResponse) (Except.ok [])).report ≠
      priorState.report := by
  decide

/-- Claim C1, as amended: for every run with hospital and year selected
whose report fetch returns a non-2xx response (cases fetch succeeding), the
prior report state is cleared to null, and the surfaced error message is the
`getJson` message, containing both the HTTP status code and the response
body text. -/
theorem C1_report_fetch_failure_clears_and_surfaces
    (s : AppState) (r : HttpResponse FraudResponse) (cs : List TopCase)
    (hH : s.selectedHospital ≠ "") (hY : jsTruthyYear s.year = true)
    (hbad : resOk r.status = false) :
    (handleRun s (runFraudCheck r) (Except.ok cs)).report = none ∧
    (handleRun s (runFraudCheck r) (Except.ok cs)).error = apiErrorMsg r.status r.bodyText ∧
    strContains ((handleRun s (runFraudCheck r) (Except.ok cs)).error) (toString r.status) = true ∧
    strContains ((handleRun s (runFraudCheck r) (Except.ok cs)).error) r.bodyText = true := by
  have hrr : runFraudCheck r = Except.error (apiErrorMsg r.status r.bodyText) := by
    rw [runFraudCheck, getJson_non2xx r hbad]
    rfl
  have hguard : (s.selectedHospital == "" || !(jsTruthyYear s.year)) = false := by
    simp [hY, hH]
  have hmsg : jsOrString (apiErrorMsg r.status r.bodyText) "Failed to run fraud detector." =
      apiErrorMsg r.status r.bodyText := by
    simp [jsOrString, apiErrorMsg_ne_empty r.status r.bodyText]
  simp [handleRun, hrr, hguard, hmsg, strContains_status, strContains_body]

/-- Claim C1 witness. -/
theorem C1_report_fetch_failure_clears_and_surfaces_witness :
    (handleRun priorState (runFraudCheck badReportResponse) (Except.ok [])).report = none ∧
    (handleRun priorState (runFraudCheck badReportResponse) (Except.ok [])).error =
      apiErrorMsg 500 "server error" ∧
    strContains ((handleRun priorState (runFraudCheck badReportResponse) (Except.ok [])).error)
      (toString 500) = true ∧
    strContains ((handleRun priorState (runFraudCheck badReportResponse) (Except.ok [])).error)
      "server error" = true :=
  C1_report_fetch_failure_clears_and_surfaces priorState badReportResponse []
    (by decide) (by decide) (by decide)

/-- Claim C2: for every run with hospital and year selected, if either of the
two concurrent fetches fails, the report is cleared to null and the cases
list emptied, a non-empty error message derived from the failure is set, and
the screen step (and active tab) are unchanged — no transition to the
dashboard. -/
theorem C2_fetch_failure_clears_report_and_keeps_screen
    (s : AppState) (reportRes : Except String FraudReport)
    (casesRes : Except String (List TopCase)) (m : String)
    (hH : s.selectedHospital ≠ "") (hY : jsTruthyYear s.year = true)
    (hfail : reportRes = Except.error m ∨
      ((∃ rep, reportRes = Except.ok rep) ∧ casesRes = Except.error m)) :
    (handleRun s reportRes casesRes).report = none ∧
    (handleRun s reportRes casesRes).topCases = [] ∧
    (handleRun s reportRes casesRes).error = jsOrString m "Failed to run fraud detector." ∧
    (handleRun s reportRes casesRes).error ≠ "" ∧
    (handleRun s reportRes casesRes).step = s.step ∧
    (handleRun s reportRes casesRes).activeTab = s.activeTab := by
  have hguard : (s.selectedHospital == "" || !(jsTruthyYear s.year)) = false := by
    simp [hY, hH]
  have hne : jsOrString m "Failed to run fraud detector." ≠ "" := by
    by_cases hm : m = "" <;> simp [jsOrString, hm]
  rcases hfail with hrep | ⟨⟨rep, hrep⟩, hcase⟩
  · subst hrep
    simp [handleRun, hguard, hne]
  · subst hrep; subst hcase
    simp [handleRun, hguard, hne]

/-- Claim C2 witness. -/
theorem C2_fetch_failure_clears_report_and_keeps_screen_witness :
    (handleRun priorState (Except.error "boom") (Except.ok [])).report = none ∧
    (handleRun priorState (Except.error "boom") (Except.ok [])).topCases = [] ∧
    (handleRun priorState (Except.error "boom") (Except.ok [])).error =
      jsOrString "boom" "Failed to run fraud detector." ∧
    (handleRun priorState (Except.error "boom") (Except.ok [])).error ≠ "" ∧
    (handleRun priorState (Except.error "boom") (Except.ok [])).step = priorState.step ∧
    (handleRun priorState (Except.error "boom") (Except.ok [])).activeTab =
      priorState.activeTab :=
  C2_fetch_failure_clears_report_and_keeps_screen priorState (Except.error "boom")
    (Except.ok []) "boom" (by decide) (by decide) (Or.inl rfl)

/-- Claim C3: the report query parameters always carry `hospital_id` and the
stringified `year`; with no quarter the `quarter` key is absent entirely,
and with quarter in 1..4 it is appended as its decimal string. -/
theorem C3_quarter_param_inclusion (h : String) (y : Int) :
    (fraudCheckParams h y none = [("hospital_id", h), ("year", toString y)] ∧
      ∀ kv ∈ fraudCheckParams h y none, kv.1 ≠ "quarter") ∧
    ∀ q : Int, (q = 1 ∨ q = 2 ∨ q = 3 ∨ q = 4) →
      fraudCheckParams h y (some q) =
        [("hospital_id", h), ("year", toString y), ("quarter", toString q)] ∧
      ("quarter", toString q) ∈ fraudCheckParams h y (some q) := by
  refine ⟨⟨rfl, ?_⟩, ?_⟩
  · intro kv hkv
    simp [fraudCheckParams] at hkv
    rcases hkv with h1 | h1 <;> simp [h1]
  · intro q _
    constructor
    · simp [fraudCheckParams]
    · simp [fraudCheckParams]

/-- Claim C3 witness. -/
theorem C3_quarter_param_inclusion_witness :
    fraudCheckParams "H1" 2023 none =
      [("hospital_id", "H1"), ("year", toString (2023 : Int))] ∧
    fraudCheckParams "H1" 2023 (some 2) =
      [("hospital_id", "H1"), ("year", toString (2023 : Int)), ("quarter", toString (2 : Int))] ∧
    ("quarter", toString (2 : Int)) ∈ fraudCheckParams "H1" 2023 (some 2) :=
  ⟨(C3_quarter_param_inclusion "H1" 2023).1.1,
   ((C3_quarter_param_inclusion "H1" 2023).2 2 (by decide)).1,
   ((C3_quarter_param_inclusion "H1" 2023).2 2 (by decide)).2⟩

/-- Claim C4: the array shape of `risk_distribution` is normalized by
case-insensitive substring matching of each entry name against
`high`/`medium`/`low`; in particular
`[{name:"High Risk", value:5},{name:"medium", value:2}]` normalizes to
`{High: 5, Medium: 2}` with `Low` absent. -/
theorem C4_risk_distribution_array_normalization :
    (∀ v₁ v₂ : Int,
      normalizeRDArray [some ⟨some "High Risk", v₁⟩, some ⟨some "medium", v₂⟩] =
        ⟨some v₁, some v₂, none⟩) ∧
    (∀ d : FraudResponse,
      d.risk_distribution =
        some (RiskDistInput.arr [some ⟨some "High Risk", 5⟩, some ⟨some "medium", 2⟩]) →
      (normalizeReport d).riskDistribution = ⟨some 5, some 2, none⟩) ∧
    (∀ (acc : RiskDistObj) (e : RDEntry),
      strIncludesLower (e.name.getD "") "high" = true →
      rdStep acc (some e) = { acc with High := some e.value }) := by
  have hhr : strIncludesLower "High Risk" "high" = true := by decide
  have hmm : strIncludesLower "medium" "medium" = true := by decide
  have hmh : strIncludesLower "medium" "high" = false := by decide
  refine ⟨?_, ?_, ?_⟩
  · intro v₁ v₂
    simp [normalizeRDArray, rdStep, hhr, hmm, hmh]
  · intro d hd
    have : normalizeRDArray [some ⟨some "High Risk", 5⟩, some ⟨some "medium", 2⟩] =
        ⟨some 5, some 2, none⟩ := by decide
    simp [normalizeReport, riskDistFromInput, hd, this]
  · intro acc e he
    simp [rdStep, he]

/-- Claim C4 witness. -/
theorem C4_risk_distribution_array_normalization_witness :
    normalizeRDArray [some ⟨some "High Risk", 5⟩, some ⟨some "medium", 2⟩] =
      ⟨some 5, some 2, none⟩ ∧
    (normalizeReport { emptyResponse with
        risk_distribution :=
          some (RiskDistInput.arr
            [some ⟨some "High Risk", 5⟩, some ⟨some "medium", 2⟩]) }).riskDistribution =
      ⟨some 5, some 2, none⟩ ∧
    rdStep ⟨none, none, none⟩ (some ⟨some "High Risk", (7 : Int)⟩) = ⟨some 7, none, none⟩ :=
  ⟨C4_risk_distribution_array_normalization.1 5 2,
   C4_risk_distribution_array_normalization.2.1 _ rfl,
   (C4_risk_distribution_array_normalization.2.2 ⟨none, none, none⟩
      ⟨some "High Risk", 7⟩ (by decide)).trans (by decide)⟩

/-- The response exhibiting the C5 deviation: `risk_level` present but the
empty string, `hospital_risk_level` present. -/
def c5Response : FraudResponse :=
  { emptyResponse with risk_level := some "", hospital_risk_level := some "LOW" }

/-- Claim C5, counterexample: with `risk_level` present (the empty string)
and `hospital_risk_level = "LOW"`, normalization does NOT prefer the present
`risk_level` — JavaScript `||` treats the empty string as falsy and yields
`"LOW"`. -/
theorem C5_present_risk_level_counterexample :
    c5Response.risk_level.isSome = true ∧
    (normalizeReport c5Response).hospitalRiskLevel ≠ c5Response.risk_level ∧
    (normalizeReport c5Response).hospitalRiskLevel = some "LOW" := by
  decide

/-- Claim C5, as amended: `hospitalRiskLevel` is derived from `risk_level`
or `hospital_risk_level`, preferring `risk_level` when it is present AND
non-empty (truthy); an absent or empty `risk_level` falls through to
`hospital_risk_level`. In particular, `hospital_risk_level` absent with
`risk_level = "HIGH"` yields `"HIGH"`. -/
theorem C5_risk_level_preference (d : FraudResponse) :
    (∀ s : String, d.risk_level = some s → s ≠ "" →
      (normalizeReport d).hospitalRiskLevel = some s) ∧
    ((d.risk_level = none ∨ d.risk_level = some "") →
      (normalizeReport d).hospitalRiskLevel = d.hospital_risk_level) ∧
    (d.hospital_risk_level = none → d.risk_level = some "HIGH" →
      (normalizeReport d).hospitalRiskLevel = some "HIGH") := by
  refine ⟨?_, ?_, ?_⟩
  · intro s hs hne
    simp [normalizeReport, jsOrOptStr, hs, hne]
  · intro hcase
    rcases hcase with hc | hc <;> simp [normalizeReport, jsOrOptStr, hc]
  · intro _ hr
    simp [normalizeReport, jsOrOptStr, hr]

/-- Claim C5 witness. -/
theorem C5_risk_level_preference_witness :
    (normalizeReport { emptyResponse with risk_level := some "HIGH" }).hospitalRiskLevel =
      some "HIGH" ∧
    (normalizeReport c5Response).hospitalRiskLevel = c5Response.hospital_risk_level :=
  ⟨(C5_risk_level_preference { emptyResponse with risk_level := some "HIGH" }).2.2
      rfl rfl,
   (C5_risk_level_preference c5Response).2.1 (Or.inr rfl)⟩

/-- Claim C6: when neither trend field is present, the normalized `trend` is
the empty sequence and the trend chart card renders its empty-state message
instead of a chart. -/
theorem C6_absent_trend_empty_state (d : FraudResponse)
    (h1 : d.fraud_trend_last_3_months = none) (h2 : d.trend_last_3_months = none) :
    (normalizeReport d).trend = [] ∧
    trendChartView (some (normalizeReport d)) =
      ChartView.emptyMessage "No month data available." := by
  have ht : (normalizeReport d).trend = [] := by
    simp [normalizeReport, jsOrList, h1, h2]
  exact ⟨ht, by simp [trendChartView, lineData, ht]⟩

/-- Claim C6 witness. -/
theorem C6_absent_trend_empty_state_witness :
    (normalizeReport emptyResponse).trend = [] ∧
    trendChartView (some (normalizeReport emptyResponse)) =
      ChartView.emptyMessage "No month data available." :=
  C6_absent_trend_empty_state emptyResponse rfl rfl

/-- Claim C7: each of the four API operations fails on a non-2xx status with
the `getJson` error, whose message contains both the decimal status code and
the raw response body text. -/
theorem C7_non2xx_error_carries_status_and_body
    (status : Nat) (body : String) (hbad : resOk status = false) :
    (∀ j : HospitalsPayload,
      getHospitals ⟨status, body, j⟩ = Except.error (apiErrorMsg status body)) ∧
    (∀ j : YearsPayload,
      getYears ⟨status, body, j⟩ = Except.error (apiErrorMsg status body)) ∧
    (∀ j : FraudResponse,
      runFraudCheck ⟨status, body, j⟩ = Except.error (apiErrorMsg status body)) ∧
    (∀ j : TopCasesPayload,
      getTopCases ⟨status, body, j⟩ = Except.error (apiErrorMsg status body)) ∧
    strContains (apiErrorMsg status body) (toString status) = true ∧
    strContains (apiErrorMsg status body) body = true := by
  have hj : ∀ {α : Type} (j : α),
      getJson (⟨status, body, j⟩ : HttpResponse α) =
        Except.error (apiErrorMsg status body) := by
    intro α j
    exact getJson_non2xx _ hbad
  refine ⟨?_, ?_, ?_, ?_, strContains_status status body, strContains_body status body⟩
  all_goals intro j
  · rw [getHospitals, hj]; rfl
  · rw [getYears, hj]; rfl
  · rw [runFraudCheck, hj]; rfl
  · rw [getTopCases, hj]; rfl

/-- Claim C7 witness. -/
theorem C7_non2xx_error_carries_status_and_body_witness :
    getHospitals ⟨500, "server error", ⟨none⟩⟩ =
      Except.error (apiErrorMsg 500 "server error") ∧
    getYears ⟨500, "server error", ⟨none⟩⟩ =
      Except.error (apiErrorMsg 500 "server error") ∧
    runFraudCheck ⟨500, "server error", emptyResponse⟩ =
      Except.error (apiErrorMsg 500 "server error") ∧
    getTopCases ⟨500, "server error", ⟨none⟩⟩ =
      Except.error (apiErrorMsg 500 "server error") ∧
    strContains (apiErrorMsg 500 "server error") (toString 500) = true ∧
    strContains (apiErrorMsg 500 "server error") "server error" = true :=
  ⟨(C7_non2xx_error_carries_status_and_body 500 "server error" (by decide)).1 ⟨none⟩,
   (C7_non2xx_error_carries_status_and_body 500 "server error" (by decide)).2.1 ⟨none⟩,
   (C7_non2xx_error_carries_status_and_body 500 "server error" (by decide)).2.2.1 emptyResponse,
   (C7_non2xx_error_carries_status_and_body 500 "server error" (by decide)).2.2.2.1 ⟨none⟩,
   (C7_non2xx_error_carries_status_and_body 500 "server error" (by decide)).2.2.2.2.1,
   (C7_non2xx_error_carries_status_and_body 500 "server error" (by decide)).2.2.2.2.2⟩

/-- Claim C8: for every startup in which the hospitals fetch succeeds and
the years fetch fails, the years list becomes the static fallback
`[2021, 2022, 2023]`, the selected year becomes 2023 (its latest element),
and no page-level error is surfaced. -/
theorem C8_years_fallback (s : AppState) (hs : List Hospital) (em : String) :
    (loadData (Except.ok hs) (Except.error em) s).years = [2021, 2022, 2023] ∧
    (loadData (Except.ok hs) (Except.error em) s).year = some 2023 ∧
    (loadData (Except.ok hs) (Except.error em) s).hospitalsError = "" ∧
    (loadData (Except.ok hs) (Except.error em) s).hospitalsLoading = false := by
  simp [loadData]

/-- Claim C9: over every report, the risk banner color is the red constant
exactly when the label is `HIGH`, the orange constant exactly when it is
`MEDIUM`, and the green constant in every other case — including an absent
report, a lowercase `high`, and the empty label. -/
theorem C9_risk_banner_color_characterization :
    (∀ r : FraudReport,
      (riskLevelColor (riskLevelLabel (some r)) = "#FF4D4F" ↔
        riskLevelLabel (some r) = "HIGH") ∧
      (riskLevelColor (riskLevelLabel (some r)) = "#FFA940" ↔
        riskLevelLabel (some r) = "MEDIUM") ∧
      (riskLevelColor (riskLevelLabel (some r)) = "#52C41A" ↔
        (riskLevelLabel (some r) ≠ "HIGH" ∧ riskLevelLabel (some r) ≠ "MEDIUM"))) ∧
    riskLevelColor (riskLevelLabel none) = "#52C41A" ∧
    riskLevelColor "high" = "#52C41A" ∧
    riskLevelColor "" = "#52C41A" := by
  have hgen : ∀ label : String,
      (riskLevelColor label = "#FF4D4F" ↔ label = "HIGH") ∧
      (riskLevelColor label = "#FFA940" ↔ label = "MEDIUM") ∧
      (riskLevelColor label = "#52C41A" ↔ (label ≠ "HIGH" ∧ label ≠ "MEDIUM")) := by
    intro label
    by_cases h1 : label = "HIGH"
    · subst h1; simp [riskLevelColor]
    · by_cases h2 : label = "MEDIUM"
      · subst h2; simp [riskLevelColor]
      · simp [riskLevelColor, h1, h2]
  exact ⟨fun r => hgen (riskLevelLabel (some r)), by decide, by decide, by decide⟩

/-- Claim C10: in the array-shape normalization, null entries are skipped,
entries matching no tier substring are dropped, the matching precedence is
high over medium over low (a name containing both `high` and `low` counts
as High), and a later entry for the same tier overwrites an earlier one. -/
theorem C10_rd_array_edge_behavior :
    (∀ l : List (Option RDEntry), normalizeRDArray (none :: l) = normalizeRDArray l) ∧
    (∀ (acc : RiskDistObj) (e : RDEntry),
      strIncludesLower (e.name.getD "") "high" = false →
      strIncludesLower (e.name.getD "") "medium" = false →
      strIncludesLower (e.name.getD "") "low" = false →
      rdStep acc (some e) = acc) ∧
    (∀ (acc : RiskDistObj) (e : RDEntry),
      strIncludesLower (e.name.getD "") "high" = true →
      rdStep acc (some e) = { acc with High := some e.value }) ∧
    (∀ (acc : RiskDistObj) (e : RDEntry),
      strIncludesLower (e.name.getD "") "high" = false →
      strIncludesLower (e.name.getD "") "medium" = true →
      rdStep acc (some e) = { acc with Medium := some e.value }) ∧
    normalizeRDArray [some ⟨some "highlow", 3⟩] = ⟨some 3, none, none⟩ ∧
    (∀ v₁ v₂ : Int,
      normalizeRDArray [some ⟨some "high", v₁⟩, some ⟨some "HIGH risk", v₂⟩] =
        ⟨some v₂, none, none⟩) ∧
    normalizeRDArray [none, some ⟨some "nothing", 9⟩] = ⟨none, none, none⟩ := by
  have hh : strIncludesLower "high" "high" = true := by decide
  have hH : strIncludesLower "HIGH risk" "high" = true := by decide
  refine ⟨fun l => rfl, ?_, ?_, ?_, by decide, ?_, by decide⟩
  · intro acc e h1 h2 h3
    simp [rdStep, h1, h2, h3]
  · intro acc e h1
    simp [rdStep, h1]
  · intro acc e h1 h2
    simp [rdStep, h1, h2]
  · intro v₁ v₂
    simp [normalizeRDArray, rdStep, hh, hH]

/-- Claim C10 witness. -/
theorem C10_rd_array_edge_behavior_witness :
    normalizeRDArray [none, some ⟨some "x", (1 : Int)⟩] =
      normalizeRDArray [some ⟨some "x", (1 : Int)⟩] ∧
    rdStep ⟨none, none, none⟩ (some ⟨some "nothing", (9 : Int)⟩) = ⟨none, none, none⟩ ∧
    rdStep ⟨none, some 1, some 2⟩ (some ⟨some "highlow", (3 : Int)⟩) = ⟨some 3, some 1, some 2⟩ ∧
    rdStep ⟨some 1, none, none⟩ (some ⟨some "Medium Tier", (6 : Int)⟩) = ⟨some 1, some 6, none⟩ ∧
    normalizeRDArray [some ⟨some "high", (3 : Int)⟩, some ⟨some "HIGH risk", (4 : Int)⟩] =
      ⟨some 4, none, none⟩ :=
  ⟨C10_rd_array_edge_behavior.1 [some ⟨some "x", 1⟩],
   (C10_rd_array_edge_behavior.2.1 ⟨none, none, none⟩ ⟨some "nothing", 9⟩
      (by decide) (by decide) (by decide)).trans (by decide),
   (C10_rd_array_edge_behavior.2.2.1 ⟨none, some 1, some 2⟩ ⟨some "highlow", 3⟩
      (by decide)).trans (by decide),
   (C10_rd_array_edge_behavior.2.2.2.1 ⟨some 1, none, none⟩ ⟨some "Medium Tier", 6⟩
      (by decide) (by decide)).trans (by decide),
   C10_rd_array_edge_behavior.2.2.2.2.2.1 3 4⟩
